import Mathlib

/-!
Verification of the Anniedale plane-capability predicates of the Intel IMG
hardware composer (src/ips/anniedale/PlaneCapabilities.cpp).

The five predicates are pure functions of their arguments; they are embedded
here as computable Lean functions.  C `int` values are modelled as `Int`,
C `uint32_t`/`uint8_t` values as `Nat`.  The source rectangle of
`isScalingSupported` has `float` edges in the C source, but the code only
ever uses `(int)src.right`, `(int)src.left`, etc.; the embedding therefore
takes the already-truncated integer values of those edges as inputs.

The numeric values of the platform constants (plane-type enumerators, HAL
pixel formats, HAL transforms, blend modes, overlay maxima) come from
headers that are not part of this repository's sources; the behaviour of
the predicates depends only on those constants being pairwise distinct,
which the chosen values are.
-/

namespace DisplayPlane

/-- Plane-type enumerators, declared in DisplayPlane.h (a header this file
includes but that is outside the sources verified here); only their
distinctness matters to the predicates. -/
def PLANE_SPRITE : Int := 1

def PLANE_OVERLAY : Int := 2

def PLANE_PRIMARY : Int := 3

/-- Blend-mode constants from DisplayPlane.h, mirroring the HWC blending
enumeration. -/
def PLANE_BLENDING_NONE : Nat := 0x100

def PLANE_BLENDING_PREMULT : Nat := 0x105

end DisplayPlane

/-- HAL pixel-format constants (hal_public.h / system headers, outside the
verified sources); only distinctness matters. -/
def HAL_PIXEL_FORMAT_RGBA_8888 : Nat := 1

def HAL_PIXEL_FORMAT_RGBX_8888 : Nat := 2

def HAL_PIXEL_FORMAT_RGB_565 : Nat := 4

def HAL_PIXEL_FORMAT_BGRA_8888 : Nat := 5

def HAL_PIXEL_FORMAT_BGRX_8888 : Nat := 0x1FF

def HAL_PIXEL_FORMAT_YV12 : Nat := 0x32315659

def HAL_PIXEL_FORMAT_NV12 : Nat := 0x3231564E

def HAL_PIXEL_FORMAT_YUY2 : Nat := 0x32595559

def HAL_PIXEL_FORMAT_UYVY : Nat := 0x59565955

def HAL_PIXEL_FORMAT_I420 : Nat := 0x30323449

/-- OMX vendor semiplanar format constants (OMX_IVCommon.h, outside the
verified sources). -/
def OMX_INTEL_COLOR_FormatYUV420PackedSemiPlanar : Nat := 0x7FA00000

def OMX_INTEL_COLOR_FormatYUV420PackedSemiPlanar_Tiled : Nat := 0x7FA00001

/-- HAL transform constants (standard Android values): FLIP_H = 1,
FLIP_V = 2, ROT_90 = 4, ROT_180 = FLIP_H|FLIP_V = 3, ROT_270 = 7.
Identity is 0. -/
def HAL_TRANSFORM_ROT_90 : Nat := 4

def HAL_TRANSFORM_ROT_180 : Nat := 3

def HAL_TRANSFORM_ROT_270 : Nat := 7

/-- Modelled from the spec: OverlayHardware.h is not among the verified
sources; the spec and the source comment state the overlay cannot support a
resolution bigger than 2047x2047, i.e. the maxima are 2048 and the checks
use the maxima minus one. -/
def INTEL_OVERLAY_MAX_WIDTH : Int := 2048

def INTEL_OVERLAY_MAX_HEIGHT : Int := 2048

/-- Stride limits defined at the top of PlaneCapabilities.cpp. -/
def SPRITE_PLANE_MAX_STRIDE_LINEAR : Nat := 10240

def OVERLAY_PLANE_MAX_STRIDE_PACKED : Nat := 4096

def OVERLAY_PLANE_MAX_STRIDE_LINEAR : Nat := 8192

/-- The stride argument of isSizeSupported: a union in the C source with an
rgb view (stride) and a yuv view (yStride, uvStride); the code reads
stride.rgb.stride on the sprite/primary branch and stride.yuv.yStride on
the overlay branch. -/
structure stride_t where
  rgbStride : Nat
  yStride : Nat
  uvStride : Nat
  deriving DecidableEq, Repr

/-- hwc_frect_t has float edges; the code uses only their (int) casts, so
the fields here hold those truncated integer values. -/
structure hwc_frect_t where
  left : Int
  top : Int
  right : Int
  bottom : Int
  deriving DecidableEq, Repr

/-- hwc_rect_t: integer destination rectangle. -/
structure hwc_rect_t where
  left : Int
  top : Int
  right : Int
  bottom : Int
  deriving DecidableEq, Repr

namespace PlaneCapabilities

open DisplayPlane

/-- PlaneCapabilities::isFormatSupported (PlaneCapabilities.cpp lines
44-81): sprite/primary accept the five RGB formats with no transform;
overlay accepts I420/NV12/YUY2/UYVY with no transform and
YV12/OMX-semiplanar/OMX-semiplanar-tiled unconditionally; anything else is
false. -/
def isFormatSupported (planeType : Int) (format : Nat) (trans : Nat) : Bool :=
  if planeType = PLANE_SPRITE ∨ planeType = PLANE_PRIMARY then
    if format = HAL_PIXEL_FORMAT_BGRA_8888 ∨ format = HAL_PIXEL_FORMAT_BGRX_8888 ∨
        format = HAL_PIXEL_FORMAT_RGBA_8888 ∨ format = HAL_PIXEL_FORMAT_RGBX_8888 ∨
        format = HAL_PIXEL_FORMAT_RGB_565 then
      if trans ≠ 0 then false else true
    else
      false
  else if planeType = PLANE_OVERLAY then
    if format = HAL_PIXEL_FORMAT_I420 ∨ format = HAL_PIXEL_FORMAT_NV12 ∨
        format = HAL_PIXEL_FORMAT_YUY2 ∨ format = HAL_PIXEL_FORMAT_UYVY then
      if trans ≠ 0 then false else true
    else if format = HAL_PIXEL_FORMAT_YV12 ∨
        format = OMX_INTEL_COLOR_FormatYUV420PackedSemiPlanar ∨
        format = OMX_INTEL_COLOR_FormatYUV420PackedSemiPlanar_Tiled then
      true
    else
      false
  else
    false

/-- PlaneCapabilities::isSizeSupported (lines 83-140): sprite/primary check
the rgb stride of the five RGB formats against the linear sprite limit;
overlay classifies the YUV format as packed or planar/semiplanar and checks
the luma stride against the corresponding limit; the width and height
arguments are never consulted. -/
def isSizeSupported (planeType : Int) (format : Nat) (w h : Nat) (stride : stride_t) : Bool :=
  if planeType = PLANE_SPRITE ∨ planeType = PLANE_PRIMARY then
    if format = HAL_PIXEL_FORMAT_BGRA_8888 ∨ format = HAL_PIXEL_FORMAT_BGRX_8888 ∨
        format = HAL_PIXEL_FORMAT_RGBA_8888 ∨ format = HAL_PIXEL_FORMAT_RGBX_8888 ∨
        format = HAL_PIXEL_FORMAT_RGB_565 then
      if stride.rgbStride > SPRITE_PLANE_MAX_STRIDE_LINEAR then false else true
    else
      false
  else if planeType = PLANE_OVERLAY then
    let packedClass : Option Bool :=
      if format = HAL_PIXEL_FORMAT_YV12 ∨ format = HAL_PIXEL_FORMAT_I420 ∨
          format = HAL_PIXEL_FORMAT_NV12 ∨
          format = OMX_INTEL_COLOR_FormatYUV420PackedSemiPlanar ∨
          format = OMX_INTEL_COLOR_FormatYUV420PackedSemiPlanar_Tiled then
        some false
      else if format = HAL_PIXEL_FORMAT_YUY2 ∨ format = HAL_PIXEL_FORMAT_UYVY then
        some true
      else
        none
    match packedClass with
    | none => false
    | some isYUVPacked =>
      let maxStride :=
        if isYUVPacked then OVERLAY_PLANE_MAX_STRIDE_PACKED
        else OVERLAY_PLANE_MAX_STRIDE_LINEAR
      if stride.yStride > maxStride then false else true
  else
    false

/-- PlaneCapabilities::isBlendingSupported (lines 142-161): sprite/primary
accept NONE and PREMULT; overlay accepts only NONE; planeAlpha is never
consulted. -/
def isBlendingSupported (planeType : Int) (blending : Nat) (planeAlpha : Nat) : Bool :=
  if planeType = PLANE_SPRITE ∨ planeType = PLANE_PRIMARY then
    if blending = PLANE_BLENDING_NONE ∨ blending = PLANE_BLENDING_PREMULT then true
    else false
  else if planeType = PLANE_OVERLAY then
    if blending = PLANE_BLENDING_NONE then true else false
  else
    false

/-- PlaneCapabilities::isScalingSupported (lines 163-200).  On the overlay
branch the C code computes scaleX = srcW / dstW and scaleY = srcH / dstH
unconditionally once the maximum-dimension check has passed; when dstW or
dstH is zero that division is undefined behaviour in C, which the embedding
makes explicit by returning none there.  C integer division truncates
toward zero, which is Int.tdiv. -/
def isScalingSupported (planeType : Int) (src : hwc_frect_t) (dest : hwc_rect_t)
    (trans : Nat) : Option Bool :=
  let srcW := src.right - src.left
  let srcH := src.bottom - src.top
  let dstW := dest.right - dest.left
  let dstH := dest.bottom - dest.top
  if planeType = PLANE_SPRITE ∨ planeType = PLANE_PRIMARY then
    some (decide (srcW = dstW ∧ srcH = dstH))
  else if planeType = PLANE_OVERLAY then
    if srcW > INTEL_OVERLAY_MAX_WIDTH - 1 ∨ srcH > INTEL_OVERLAY_MAX_HEIGHT - 1 then
      some false
    else
      let srcW2 := if trans = HAL_TRANSFORM_ROT_90 ∨ trans = HAL_TRANSFORM_ROT_270 then srcH else srcW
      let srcH2 := if trans = HAL_TRANSFORM_ROT_90 ∨ trans = HAL_TRANSFORM_ROT_270 then srcW else srcH
      if dstW = 0 ∨ dstH = 0 then
        none
      else
        let scaleX := Int.tdiv srcW2 dstW
        let scaleY := Int.tdiv srcH2 dstH
        if trans ≠ 0 ∧ (3 ≤ scaleX ∨ 3 ≤ scaleY) then some false else some true
  else
    some false

/-- PlaneCapabilities::isTransformSupported (lines 202-208): overlay always
true; every other plane type, valid or not, is true exactly for the zero
transform. -/
def isTransformSupported (planeType : Int) (trans : Nat) : Bool :=
  if planeType = PLANE_OVERLAY then true
  else if trans ≠ 0 then false else true

end PlaneCapabilities

/-- Modelled from the claim and spec wording of the overlay scaling
algorithm (spec section 4.4, steps 1-5): reject a pre-swap source extent
exceeding the overlay maximum dimension minus one; swap source extents on a
90 or 270 degree rotation; compute the truncated integer scale ratios;
reject a non-identity transform combined with a ratio of at least 3;
otherwise accept. -/
def overlayScalingSpec (src : hwc_frect_t) (dest : hwc_rect_t) (trans : Nat) : Bool :=
  let srcW := src.right - src.left
  let srcH := src.bottom - src.top
  let dstW := dest.right - dest.left
  let dstH := dest.bottom - dest.top
  if srcW > INTEL_OVERLAY_MAX_WIDTH - 1 ∨ srcH > INTEL_OVERLAY_MAX_HEIGHT - 1 then
    false
  else
    let sW := if trans = HAL_TRANSFORM_ROT_90 ∨ trans = HAL_TRANSFORM_ROT_270 then srcH else srcW
    let sH := if trans = HAL_TRANSFORM_ROT_90 ∨ trans = HAL_TRANSFORM_ROT_270 then srcW else srcH
    let scaleX := Int.tdiv sW dstW
    let scaleY := Int.tdiv sH dstH
    if trans ≠ 0 ∧ (3 ≤ scaleX ∨ 3 ≤ scaleY) then false else true

example : PlaneCapabilities.isTransformSupported 0 0 = true := by decide

example : PlaneCapabilities.isScalingSupported DisplayPlane.PLANE_OVERLAY
    ⟨0, 0, 100, 100⟩ ⟨0, 0, 0, 100⟩ 0 = none := by decide

example : PlaneCapabilities.isScalingSupported DisplayPlane.PLANE_OVERLAY
    ⟨0, 0, 1800, 100⟩ ⟨0, 0, 300, 100⟩ HAL_TRANSFORM_ROT_90 = some false := by decide

example : PlaneCapabilities.isScalingSupported DisplayPlane.PLANE_OVERLAY
    ⟨0, 0, 2048, 100⟩ ⟨0, 0, 1, 1⟩ 0 = some false := by decide

example : PlaneCapabilities.isSizeSupported DisplayPlane.PLANE_OVERLAY
    HAL_PIXEL_FORMAT_YUY2 0 0 ⟨0, 4096, 0⟩ = true := by decide

example : PlaneCapabilities.isSizeSupported DisplayPlane.PLANE_OVERLAY
    HAL_PIXEL_FORMAT_YUY2 0 0 ⟨0, 4097, 0⟩ = false := by decide

/-- C1: the claim states that for every plane class a destination rectangle
with zero or negative derived extents makes isScalingSupported return false
without dividing by zero.  The code violates this: on the overlay branch it
divides by the destination extents unconditionally once the maximum-
dimension check passes, so a zero destination width is a division by zero
(undefined behaviour, embedded as none); and on the sprite branch a
degenerate destination equal to the source returns true, not false. -/
theorem c1_zero_dest_not_rejected :
    PlaneCapabilities.isScalingSupported DisplayPlane.PLANE_OVERLAY
      ⟨0, 0, 100, 100⟩ ⟨0, 0, 0, 100⟩ 0 = none ∧
    PlaneCapabilities.isScalingSupported DisplayPlane.PLANE_SPRITE
      ⟨0, 0, 0, 5⟩ ⟨0, 0, 0, 5⟩ 0 = some true := by
  decide

/-- C2 counterexample: the plane-type value 0 is outside
{Primary, Sprite, Overlay}, yet isTransformSupported with the identity
transform returns true, where the claim requires false. -/
theorem c2_invalid_plane_identity_transform_true :
    ((0 : Int) ≠ DisplayPlane.PLANE_SPRITE ∧ (0 : Int) ≠ DisplayPlane.PLANE_OVERLAY ∧
      (0 : Int) ≠ DisplayPlane.PLANE_PRIMARY) ∧
    PlaneCapabilities.isTransformSupported 0 0 = true := by
  decide

/-- C2 amended: for every plane-type value outside {Sprite, Overlay,
Primary}, isFormatSupported, isSizeSupported, isBlendingSupported and
isScalingSupported return false for all other arguments, while
isTransformSupported ignores the plane class (except Overlay) and returns
true exactly for the zero transform, so an invalid plane class with the
identity transform is reported as supported by that one predicate. -/
theorem c2_invalid_plane_fails_closed (p : Int)
    (h1 : p ≠ DisplayPlane.PLANE_SPRITE) (h2 : p ≠ DisplayPlane.PLANE_OVERLAY)
    (h3 : p ≠ DisplayPlane.PLANE_PRIMARY) :
    (∀ format trans, PlaneCapabilities.isFormatSupported p format trans = false) ∧
    (∀ format w h stride, PlaneCapabilities.isSizeSupported p format w h stride = false) ∧
    (∀ blending planeAlpha, PlaneCapabilities.isBlendingSupported p blending planeAlpha = false) ∧
    (∀ src dest trans, PlaneCapabilities.isScalingSupported p src dest trans = some false) ∧
    (∀ trans, PlaneCapabilities.isTransformSupported p trans = decide (trans = 0)) := by
  refine ⟨?_, ?_, ?_, ?_, ?_⟩
  · intro format trans
    simp [PlaneCapabilities.isFormatSupported, h1, h2, h3]
  · intro format w h stride
    simp [PlaneCapabilities.isSizeSupported, h1, h2, h3]
  · intro blending planeAlpha
    simp [PlaneCapabilities.isBlendingSupported, h1, h2, h3]
  · intro src dest trans
    simp [PlaneCapabilities.isScalingSupported, h1, h2, h3]
  · intro trans
    by_cases ht : trans = 0 <;>
      simp [PlaneCapabilities.isTransformSupported, h2, ht]

/-- C2 witness: the amended statement instantiated at the invalid plane
type 0. -/
theorem c2_invalid_plane_fails_closed_witness :
    PlaneCapabilities.isFormatSupported 0 HAL_PIXEL_FORMAT_RGBA_8888 0 = false ∧
    PlaneCapabilities.isBlendingSupported 0 DisplayPlane.PLANE_BLENDING_NONE 255 = false ∧
    PlaneCapabilities.isTransformSupported 0 0 = decide ((0 : Nat) = 0) := by
  have h := c2_invalid_plane_fails_closed 0 (by decide) (by decide) (by decide)
  exact ⟨h.1 HAL_PIXEL_FORMAT_RGBA_8888 0,
    h.2.2.1 DisplayPlane.PLANE_BLENDING_NONE 255, h.2.2.2.2 0⟩

/-- C3: on the Overlay plane class, isFormatSupported accepts YUY2, UYVY,
I420 and NV12 exactly for the identity transform, and accepts YV12 and the
two OMX vendor semiplanar formats for every transform value. -/
theorem c3_overlay_format_transform (trans : Nat) :
    (PlaneCapabilities.isFormatSupported DisplayPlane.PLANE_OVERLAY
        HAL_PIXEL_FORMAT_YUY2 trans = decide (trans = 0)) ∧
    (PlaneCapabilities.isFormatSupported DisplayPlane.PLANE_OVERLAY
        HAL_PIXEL_FORMAT_UYVY trans = decide (trans = 0)) ∧
    (PlaneCapabilities.isFormatSupported DisplayPlane.PLANE_OVERLAY
        HAL_PIXEL_FORMAT_I420 trans = decide (trans = 0)) ∧
    (PlaneCapabilities.isFormatSupported DisplayPlane.PLANE_OVERLAY
        HAL_PIXEL_FORMAT_NV12 trans = decide (trans = 0)) ∧
    (PlaneCapabilities.isFormatSupported DisplayPlane.PLANE_OVERLAY
        HAL_PIXEL_FORMAT_YV12 trans = true) ∧
    (PlaneCapabilities.isFormatSupported DisplayPlane.PLANE_OVERLAY
        OMX_INTEL_COLOR_FormatYUV420PackedSemiPlanar trans = true) ∧
    (PlaneCapabilities.isFormatSupported DisplayPlane.PLANE_OVERLAY
        OMX_INTEL_COLOR_FormatYUV420PackedSemiPlanar_Tiled trans = true) := by
  by_cases ht : trans = 0 <;>
    simp [PlaneCapabilities.isFormatSupported, DisplayPlane.PLANE_SPRITE,
      DisplayPlane.PLANE_OVERLAY, DisplayPlane.PLANE_PRIMARY,
      HAL_PIXEL_FORMAT_BGRA_8888, HAL_PIXEL_FORMAT_BGRX_8888,
      HAL_PIXEL_FORMAT_RGBA_8888, HAL_PIXEL_FORMAT_RGBX_8888,
      HAL_PIXEL_FORMAT_RGB_565, HAL_PIXEL_FORMAT_I420, HAL_PIXEL_FORMAT_NV12,
      HAL_PIXEL_FORMAT_YUY2, HAL_PIXEL_FORMAT_UYVY, HAL_PIXEL_FORMAT_YV12,
      OMX_INTEL_COLOR_FormatYUV420PackedSemiPlanar,
      OMX_INTEL_COLOR_FormatYUV420PackedSemiPlanar_Tiled, ht]

/-- C4: for the Overlay plane class with positive destination extents,
isScalingSupported computes exactly the steps the claim describes: reject a
pre-swap source extent above the overlay maximum dimension minus one, swap
the source extents on a 90 or 270 degree rotation, form the truncated
integer ratios scaleX = srcW / dstW and scaleY = srcH / dstH, reject a
non-identity transform whose ratio reaches 3, and accept otherwise
(overlayScalingSpec is that description, written from the spec's words). -/
theorem c4_overlay_scaling_steps (src : hwc_frect_t) (dest : hwc_rect_t) (trans : Nat)
    (hW : 0 < dest.right - dest.left) (hH : 0 < dest.bottom - dest.top) :
    PlaneCapabilities.isScalingSupported DisplayPlane.PLANE_OVERLAY src dest trans =
      some (overlayScalingSpec src dest trans) := by
  have hW0 : dest.right - dest.left ≠ 0 := by omega
  simp only [PlaneCapabilities.isScalingSupported, overlayScalingSpec,
    DisplayPlane.PLANE_OVERLAY, DisplayPlane.PLANE_SPRITE, DisplayPlane.PLANE_PRIMARY]
  split_ifs <;> simp_all <;> omega

/-- C4 witness: the theorem instantiated at the spec's own
rotate-90 example, src = (0,0,1800,100), dest = (0,0,300,100). -/
theorem c4_overlay_scaling_steps_witness :
    (0 : Int) < (300 : Int) - 0 ∧ (0 : Int) < (100 : Int) - 0 ∧
    PlaneCapabilities.isScalingSupported DisplayPlane.PLANE_OVERLAY
        ⟨0, 0, 1800, 100⟩ ⟨0, 0, 300, 100⟩ HAL_TRANSFORM_ROT_90 =
      some (overlayScalingSpec ⟨0, 0, 1800, 100⟩ ⟨0, 0, 300, 100⟩ HAL_TRANSFORM_ROT_90) :=
  ⟨by decide, by decide,
    c4_overlay_scaling_steps ⟨0, 0, 1800, 100⟩ ⟨0, 0, 300, 100⟩
      HAL_TRANSFORM_ROT_90 (by decide) (by decide)⟩

/-- C5: isSizeSupported returns true exactly when the format family is the
one valid for the plane class and the relevant stride is within the
applicable threshold, the threshold value itself accepted: RGB formats with
rgb stride at most 10240 on Primary/Sprite, packed YUV formats with luma
stride at most 4096 on Overlay, and planar/semiplanar YUV formats with
luma stride at most 8192 on Overlay. -/
theorem c5_size_characterization (planeType : Int) (format w h : Nat) (stride : stride_t) :
    PlaneCapabilities.isSizeSupported planeType format w h stride = true ↔
      ((planeType = DisplayPlane.PLANE_SPRITE ∨ planeType = DisplayPlane.PLANE_PRIMARY) ∧
        (format = HAL_PIXEL_FORMAT_BGRA_8888 ∨ format = HAL_PIXEL_FORMAT_BGRX_8888 ∨
          format = HAL_PIXEL_FORMAT_RGBA_8888 ∨ format = HAL_PIXEL_FORMAT_RGBX_8888 ∨
          format = HAL_PIXEL_FORMAT_RGB_565) ∧
        stride.rgbStride ≤ SPRITE_PLANE_MAX_STRIDE_LINEAR) ∨
      (planeType = DisplayPlane.PLANE_OVERLAY ∧
        (format = HAL_PIXEL_FORMAT_YUY2 ∨ format = HAL_PIXEL_FORMAT_UYVY) ∧
        stride.yStride ≤ OVERLAY_PLANE_MAX_STRIDE_PACKED) ∨
      (planeType = DisplayPlane.PLANE_OVERLAY ∧
        (format = HAL_PIXEL_FORMAT_YV12 ∨ format = HAL_PIXEL_FORMAT_I420 ∨
          format = HAL_PIXEL_FORMAT_NV12 ∨
          format = OMX_INTEL_COLOR_FormatYUV420PackedSemiPlanar ∨
          format = OMX_INTEL_COLOR_FormatYUV420PackedSemiPlanar_Tiled) ∧
        stride.yStride ≤ OVERLAY_PLANE_MAX_STRIDE_LINEAR) := by
  simp only [PlaneCapabilities.isSizeSupported, DisplayPlane.PLANE_SPRITE,
    DisplayPlane.PLANE_OVERLAY, DisplayPlane.PLANE_PRIMARY,
    HAL_PIXEL_FORMAT_BGRA_8888, HAL_PIXEL_FORMAT_BGRX_8888,
    HAL_PIXEL_FORMAT_RGBA_8888, HAL_PIXEL_FORMAT_RGBX_8888,
    HAL_PIXEL_FORMAT_RGB_565, HAL_PIXEL_FORMAT_I420, HAL_PIXEL_FORMAT_NV12,
    HAL_PIXEL_FORMAT_YUY2, HAL_PIXEL_FORMAT_UYVY, HAL_PIXEL_FORMAT_YV12,
    OMX_INTEL_COLOR_FormatYUV420PackedSemiPlanar,
    OMX_INTEL_COLOR_FormatYUV420PackedSemiPlanar_Tiled,
    SPRITE_PLANE_MAX_STRIDE_LINEAR, OVERLAY_PLANE_MAX_STRIDE_PACKED,
    OVERLAY_PLANE_MAX_STRIDE_LINEAR]
  split_ifs <;> simp_all <;> omega

/-- C6: on Primary and on Sprite, isFormatSupported returns true exactly
when the format is one of the five RGB-family formats and the transform is
the identity; every non-identity transform yields false regardless of
format, and every other format yields false regardless of transform. -/
theorem c6_sprite_primary_format_characterization (format trans : Nat) :
    (PlaneCapabilities.isFormatSupported DisplayPlane.PLANE_SPRITE format trans = true ↔
      (format = HAL_PIXEL_FORMAT_BGRA_8888 ∨ format = HAL_PIXEL_FORMAT_BGRX_8888 ∨
        format = HAL_PIXEL_FORMAT_RGBA_8888 ∨ format = HAL_PIXEL_FORMAT_RGBX_8888 ∨
        format = HAL_PIXEL_FORMAT_RGB_565) ∧ trans = 0) ∧
    (PlaneCapabilities.isFormatSupported DisplayPlane.PLANE_PRIMARY format trans = true ↔
      (format = HAL_PIXEL_FORMAT_BGRA_8888 ∨ format = HAL_PIXEL_FORMAT_BGRX_8888 ∨
        format = HAL_PIXEL_FORMAT_RGBA_8888 ∨ format = HAL_PIXEL_FORMAT_RGBX_8888 ∨
        format = HAL_PIXEL_FORMAT_RGB_565) ∧ trans = 0) := by
  constructor <;>
  · simp only [PlaneCapabilities.isFormatSupported, DisplayPlane.PLANE_SPRITE,
      DisplayPlane.PLANE_OVERLAY, DisplayPlane.PLANE_PRIMARY]
    split_ifs <;> simp_all

/-- C7: isBlendingSupported accepts None and Premultiplied on Primary and
Sprite, only None on Overlay, and for every plane type and blend mode the
result does not depend on the planeAlpha argument. -/
theorem c7_blending_characterization (blending planeAlpha : Nat) :
    (PlaneCapabilities.isBlendingSupported DisplayPlane.PLANE_SPRITE blending planeAlpha = true ↔
      (blending = DisplayPlane.PLANE_BLENDING_NONE ∨
        blending = DisplayPlane.PLANE_BLENDING_PREMULT)) ∧
    (PlaneCapabilities.isBlendingSupported DisplayPlane.PLANE_PRIMARY blending planeAlpha = true ↔
      (blending = DisplayPlane.PLANE_BLENDING_NONE ∨
        blending = DisplayPlane.PLANE_BLENDING_PREMULT)) ∧
    (PlaneCapabilities.isBlendingSupported DisplayPlane.PLANE_OVERLAY blending planeAlpha = true ↔
      blending = DisplayPlane.PLANE_BLENDING_NONE) ∧
    (∀ (p : Int) (alpha2 : Nat),
      PlaneCapabilities.isBlendingSupported p blending planeAlpha =
        PlaneCapabilities.isBlendingSupported p blending alpha2) := by
  refine ⟨?_, ?_, ?_, fun p alpha2 => rfl⟩ <;>
  · simp only [PlaneCapabilities.isBlendingSupported, DisplayPlane.PLANE_SPRITE,
      DisplayPlane.PLANE_OVERLAY, DisplayPlane.PLANE_PRIMARY]
    split_ifs <;> simp_all

/-- C8: the result of isSizeSupported is independent of the width and
height arguments, for every plane type, format and stride. -/
theorem c8_size_ignores_dimensions (planeType : Int) (format w1 h1 w2 h2 : Nat)
    (stride : stride_t) :
    PlaneCapabilities.isSizeSupported planeType format w1 h1 stride =
      PlaneCapabilities.isSizeSupported planeType format w2 h2 stride := rfl

/-- C9: for every plane-type value other than Overlay, valid or not,
isTransformSupported returns true exactly when the transform is zero; in
particular an invalid plane class with the identity transform is reported
as supported. -/
theorem c9_transform_non_overlay (planeType : Int) (trans : Nat)
    (hp : planeType ≠ DisplayPlane.PLANE_OVERLAY) :
    PlaneCapabilities.isTransformSupported planeType trans = decide (trans = 0) := by
  by_cases ht : trans = 0 <;>
    simp [PlaneCapabilities.isTransformSupported, hp, ht]

/-- C9 witness: plane type 0 (an invalid value) with the identity transform
is reported as supported, and with rotate-180 as unsupported. -/
theorem c9_transform_non_overlay_witness :
    PlaneCapabilities.isTransformSupported 0 0 = decide ((0 : Nat) = 0) ∧
    PlaneCapabilities.isTransformSupported 0 HAL_TRANSFORM_ROT_180 =
      decide (HAL_TRANSFORM_ROT_180 = 0) :=
  ⟨c9_transform_non_overlay 0 0 (by decide),
    c9_transform_non_overlay 0 HAL_TRANSFORM_ROT_180 (by decide)⟩

/-- C10 counterexample: the claim quantifies over every source rectangle
with a non-positive derived extent, but a source whose other extent exceeds
the overlay maximum is rejected by the maximum-dimension check: with
srcW = -1 and srcH = 3000, identity transform and positive destination
extents, isScalingSupported returns false where the claim requires true. -/
theorem c10_degenerate_source_rejected_when_oversize :
    ((-1 : Int) - 0 ≤ 0) ∧ (0 < (10 : Int) - 0) ∧
    PlaneCapabilities.isScalingSupported DisplayPlane.PLANE_OVERLAY
      ⟨0, 0, -1, 3000⟩ ⟨0, 0, 10, 10⟩ 0 = some false := by
  decide

/-- C10 amended: on Overlay with identity transform and positive
destination extents, a source rectangle with zero or negative derived width
or height is accepted provided both derived source extents are within the
overlay maximum dimension minus one: the maximum-dimension check is an
upper bound only, and the ratio rejection never fires for the identity
transform. -/
theorem c10_degenerate_source_supported (src : hwc_frect_t) (dest : hwc_rect_t)
    (hdeg : src.right - src.left ≤ 0 ∨ src.bottom - src.top ≤ 0)
    (hw : src.right - src.left ≤ INTEL_OVERLAY_MAX_WIDTH - 1)
    (hh : src.bottom - src.top ≤ INTEL_OVERLAY_MAX_HEIGHT - 1)
    (hW : 0 < dest.right - dest.left) (hH : 0 < dest.bottom - dest.top) :
    PlaneCapabilities.isScalingSupported DisplayPlane.PLANE_OVERLAY src dest 0 = some true := by
  simp only [PlaneCapabilities.isScalingSupported, DisplayPlane.PLANE_OVERLAY,
    DisplayPlane.PLANE_SPRITE, DisplayPlane.PLANE_PRIMARY,
    INTEL_OVERLAY_MAX_WIDTH, INTEL_OVERLAY_MAX_HEIGHT,
    HAL_TRANSFORM_ROT_90, HAL_TRANSFORM_ROT_270] at *
  split_ifs <;> simp_all <;> omega

/-- C10 witness: the amended statement at a source with zero derived width
(src = (0,0,0,5)) and destination (0,0,10,10). -/
theorem c10_degenerate_source_supported_witness :
    ((0 : Int) - 0 ≤ 0 ∨ (5 : Int) - 0 ≤ 0) ∧
    PlaneCapabilities.isScalingSupported DisplayPlane.PLANE_OVERLAY
      ⟨0, 0, 0, 5⟩ ⟨0, 0, 10, 10⟩ 0 = some true :=
  ⟨by decide,
    c10_degenerate_source_supported ⟨0, 0, 0, 5⟩ ⟨0, 0, 10, 10⟩
      (by decide) (by decide) (by decide) (by decide) (by decide)⟩
